import Mathlib

set_option autoImplicit false

/-!
Shallow embedding of `internal/collect/collector.go` (pprotein).

The Go `Collector` owns a ledger `data : map[string]*Entry` guarded by a
reader/writer lock, a storage handle, a (cached) processor and an event
publisher.  External collaborators (storage, snapshot capture/prune, the
underlying processor, the publisher) are opaque to this file, exactly as
the spec declares them out of scope; they are modelled as oracle function
parameters, and their invocations are recorded in explicit effect logs so
that claims about "no storage call", "no processing call", "Prune is
invoked" and "one publish per update" become statements about those logs.

Machine-level locking behaviour (which statements run while the ledger
lock is held) is modelled separately as per-operation event traces,
transcribed statement by statement from the Go method bodies.
-/

/-! ## Data model (collector.go lines 11-42) -/

/-- Go: `type Status string` (collector.go line 35). -/
abbrev Status := String

/-- Go: `StatusOk Status = "ok"` (collector.go line 39). -/
def StatusOk : Status := "ok"

/-- Go: `StatusFail Status = "fail"` (collector.go line 40). -/
def StatusFail : Status := "fail"

/-- Go: `StatusPending Status = "pending"` (collector.go line 41). -/
def StatusPending : Status := "pending"

/-- The snapshot collaborator, opaque except for its stable string ID
(the only field collector.go reads: `snapshot.ID`). -/
structure Snapshot where
  ID : String
deriving DecidableEq, Repr

/-- Capture request: collector.go reads `target.URL` and `target.Duration`
(line 127).  The duration is a Go `time.Duration`, an integer number of
nanoseconds; only its comparison with 0 matters here. -/
structure SnapshotTarget where
  URL : String
  Duration : Nat
deriving DecidableEq, Repr

/-- Go: the ledger value type `Entry{Snapshot, Status, Message}`
(collector.go lines 30-34). -/
structure Entry where
  Snapshot : Snapshot
  Status : Status
  Message : String
deriving DecidableEq, Repr

/-- The ledger `map[string]*Entry`, modelled as an association list. -/
abbrev Ledger := List (String × Entry)

/-- Go map update `data[id] = e`: replace the binding for `id` if present,
otherwise append a new binding. -/
def setEntry : Ledger → String → Entry → Ledger
  | [], id, e => [(id, e)]
  | (k, v) :: rest, id, e =>
      if k = id then (id, e) :: rest else (k, v) :: setEntry rest id e

/-- Go map lookup `ent, ok := data[id]`. -/
def getEntry : Ledger → String → Option Entry
  | [], _ => none
  | (k, v) :: rest, id => if k = id then some v else getEntry rest id

/-- The mutable state of a Go `Collector`, together with effect logs for
the opaque collaborators:
* `publishCount` — number of `publisher.Publish()` calls made so far;
* `prepared` — IDs of snapshots allocated via `storage.PrepareSnapshot`;
* `processed` — IDs passed to `processor.Process`;
* `pruned` — IDs whose `snapshot.Prune()` was scheduled (`go snapshot.Prune()`). -/
structure Collector where
  data : Ledger
  publishCount : Nat
  prepared : List String
  processed : List String
  pruned : List String
deriving DecidableEq, Repr

/-- Go `Collector.updateStatus` (collector.go lines 73-84): store a freshly
allocated `&Entry{Snapshot, Status, Message}` under `snapshot.ID`
(replacing any previous entry wholesale), then call `publisher.Publish()`. -/
def Collector.updateStatus (c : Collector) (snapshot : Snapshot) (status : Status)
    (msg : String) : Collector :=
  { c with
      data := setEntry c.data snapshot.ID
        { Snapshot := snapshot, Status := status, Message := msg }
      publishCount := c.publishCount + 1 }

/-- Go `Collector.runProcessor` (collector.go lines 86-101).  The processor
oracle `proc` returns `Except.error e` when `processor.Process` fails with
error text `e`; the successful result stream is opaque (it is only Closed).
On failure the code runs `go snapshot.Prune()` (logged in `pruned`), marks
the entry Fail with the raw error text, and returns the wrapped error
`"processor aborted: " ++ e`. -/
def Collector.runProcessor (proc : Snapshot → Except String Unit) (c : Collector)
    (snapshot : Snapshot) : Collector × Option String :=
  let c1 := c.updateStatus snapshot StatusPending "Processing"
  let c2 := { c1 with processed := c1.processed ++ [snapshot.ID] }
  match proc snapshot with
  | Except.error e =>
      let c3 := { c2 with pruned := c2.pruned ++ [snapshot.ID] }
      (c3.updateStatus snapshot StatusFail e, some ("processor aborted: " ++ e))
  | Except.ok _ => (c2.updateStatus snapshot StatusOk "Ready", none)

/-- Go `Collector.Get` (collector.go lines 103-113).  On a missing ID the
code formats the nil `*Entry` it just looked up: `fmt.Errorf("no such
entry: %v", ent)` renders as `"no such entry: <nil>"`.  On a hit it
returns `processor.Process(ent.Snapshot)` (result opaque). -/
def Collector.Get (proc : Snapshot → Except String Unit) (c : Collector)
    (id : String) : Collector × Except String Unit :=
  match getEntry c.data id with
  | none => (c, Except.error "no such entry: <nil>")
  | some ent =>
      ({ c with processed := c.processed ++ [ent.Snapshot.ID] }, proc ent.Snapshot)

/-- Go `Collector.List` (collector.go lines 115-124): the current entries,
in unspecified order. -/
def Collector.List (c : Collector) : List Entry := c.data.map Prod.snd

/-- Go `Collector.Collect` (collector.go lines 126-144).  Oracles:
`prepare` models `storage.PrepareSnapshot` (allocation logged in
`prepared`), `capture` models `snapshot.Collect()` (`some e` = failure
with error text `e`), `proc` models `processor.Process`. -/
def Collector.Collect (prepare : SnapshotTarget → Snapshot)
    (capture : Snapshot → Option String) (proc : Snapshot → Except String Unit)
    (c : Collector) (target : SnapshotTarget) : Collector × Option String :=
  if target.URL = "" ∨ target.Duration = 0 then
    (c, some "URL and Duration cannot be nil")
  else
    let s := prepare target
    let c1 := { c with prepared := c.prepared ++ [s.ID] }
    let c2 := c1.updateStatus s StatusPending "Collecting"
    match capture s with
    | some e => (c2.updateStatus s StatusFail e, some ("failed to collect: " ++ e))
    | none =>
      let r := Collector.runProcessor proc c2 s
      match r.2 with
      | some e => (r.1.updateStatus s StatusFail e, some ("failed to process: " ++ e))
      | none => (r.1, none)

/-- The collector state as built by `New` (collector.go lines 49-58):
empty ledger, no effects yet. -/
def initCollector : Collector :=
  { data := [], publishCount := 0, prepared := [], processed := [], pruned := [] }

/-- Result of a successful `New`: the constructed collector state plus the
list of snapshots for which a detached `go c.runProcessor(snapshot)` task
was launched (collector.go lines 66-68).  The tasks themselves run later
(modelled as subsequent `Op.runProc` steps); none has run at return time. -/
structure NewResult where
  collector : Collector
  spawned : List Snapshot
deriving Repr

/-- Go `New` (collector.go lines 44-71).  `openRes` models
`newStorage(opts.WorkDir, opts.FileName)` and `listRes` models
`store.List()`; each failure is wrapped exactly as the code wraps it. -/
def New (openRes : Except String Unit) (listRes : Except String (List Snapshot)) :
    Except String NewResult :=
  match openRes with
  | Except.error e => Except.error ("failed to initialize storage: " ++ e)
  | Except.ok _ =>
    match listRes with
    | Except.error e => Except.error ("failed to list snapshots: " ++ e)
    | Except.ok snaps => Except.ok { collector := initCollector, spawned := snaps }

/-! ## Operation machine (for reachable-state invariants)

A step is one public operation of the code, with its collaborator oracles
chosen arbitrarily per step: this covers every sequence of `updateStatus`
calls the code can make, since `updateStatus` is only ever invoked from
`Collect`, `runProcessor` and (at startup, as detached tasks) `runProcessor`
again. -/

inductive Op where
  | collect (prepare : SnapshotTarget → Snapshot) (capture : Snapshot → Option String)
      (proc : Snapshot → Except String Unit) (target : SnapshotTarget)
  | runProc (proc : Snapshot → Except String Unit) (s : Snapshot)
  | get (proc : Snapshot → Except String Unit) (id : String)
  | listOp

def applyOp (c : Collector) : Op → Collector
  | Op.collect prepare capture proc target => (Collector.Collect prepare capture proc c target).1
  | Op.runProc proc s => (Collector.runProcessor proc c s).1
  | Op.get proc id => (Collector.Get proc c id).1
  | Op.listOp => c

def runOps (c : Collector) (ops : List Op) : Collector := ops.foldl applyOp c

/-- The statuses the spec's state machine allows in the ledger. -/
def ValidStatus (st : Status) : Prop :=
  st = StatusPending ∨ st = StatusOk ∨ st = StatusFail

/-- Every entry of the ledger carries a valid status. -/
def ValidLedger (m : Ledger) : Prop := ∀ p ∈ m, ValidStatus p.2.Status

/-! ## Lock/event traces

One atomic event per Go statement that matters for the locking claims,
transcribed in program order from the method bodies.  `defer` runs the
unlock after the last listed statement of the body. -/

inductive LockEv where
  | lockW | unlockW | lockR | unlockR
  | mapWrite | mapRead | publish | processCall | captureCall
deriving DecidableEq, Repr

/-- `updateStatus` (collector.go lines 73-84): `mu.Lock()`; `defer
mu.Unlock()`; `data[snapshot.ID] = &Entry{...}`; `publisher.Publish()`;
return (deferred unlock). -/
def updateStatusTrace : List LockEv :=
  [LockEv.lockW, LockEv.mapWrite, LockEv.publish, LockEv.unlockW]

/-- `List` (collector.go lines 115-124): `mu.RLock()`; `defer mu.RUnlock()`;
copy the map; return (deferred unlock). -/
def listTrace : List LockEv := [LockEv.lockR, LockEv.mapRead, LockEv.unlockR]

/-- `Get` on a present ID (collector.go lines 103-113): `mu.RLock()`; `defer
mu.RUnlock()`; `ent, ok := data[id]`; `return processor.Process(ent.Snapshot)`
— the deferred unlock runs only after `Process` returns. -/
def getTraceHit : List LockEv :=
  [LockEv.lockR, LockEv.mapRead, LockEv.processCall, LockEv.unlockR]

/-- `Get` on an absent ID: lookup fails and the method returns the error;
no `Process` call happens. -/
def getTraceMiss : List LockEv := [LockEv.lockR, LockEv.mapRead, LockEv.unlockR]

/-- The exclusive (writer) ledger lock is held when event `i` of trace `t`
runs: strictly more `Lock()` than `Unlock()` calls precede it. -/
abbrev writerLockHeldAt (t : List LockEv) (i : Nat) : Prop :=
  (t.take i).count LockEv.unlockW < (t.take i).count LockEv.lockW

/-- The shared (reader) ledger lock is held when event `i` of trace `t` runs. -/
abbrev readerLockHeldAt (t : List LockEv) (i : Nat) : Prop :=
  (t.take i).count LockEv.unlockR < (t.take i).count LockEv.lockR

/-- Some ledger lock (shared or exclusive) is held when event `i` runs. -/
abbrev ledgerLockHeldAt (t : List LockEv) (i : Nat) : Prop :=
  writerLockHeldAt t i ∨ readerLockHeldAt t i

/-! ## Concrete oracles, for witnesses and counterexamples -/

def samplePrepare : SnapshotTarget → Snapshot := fun _ => { ID := "s1" }
def sampleCaptureOk : Snapshot → Option String := fun _ => none
def sampleCaptureFail : Snapshot → Option String := fun _ => some "dial refused"
def sampleProcOk : Snapshot → Except String Unit := fun _ => Except.ok ()
def sampleProcFail : Snapshot → Except String Unit := fun _ => Except.error "boom"
def sampleTarget : SnapshotTarget := { URL := "localhost:9000", Duration := 5 }

/-- `needle` occurs as a contiguous substring of `hay`. -/
def strContainsSub (hay needle : String) : Bool :=
  (List.range (hay.toList.length + 1)).any
    (fun i => (hay.toList.drop i).take needle.toList.length == needle.toList)

/-! ## Basic ledger lemmas -/

theorem getEntry_setEntry_self (m : Ledger) (id : String) (e : Entry) :
    getEntry (setEntry m id e) id = some e := by
  induction m with
  | nil => simp [setEntry, getEntry]
  | cons p rest ih =>
      obtain ⟨k, v⟩ := p
      by_cases h : k = id <;> simp [setEntry, getEntry, h, ih]

theorem getEntry_setEntry_ne (m : Ledger) (id j : String) (e : Entry) (h : j ≠ id) :
    getEntry (setEntry m id e) j = getEntry m j := by
  have hij : id ≠ j := Ne.symm h
  induction m with
  | nil => simp [setEntry, getEntry, hij]
  | cons p rest ih =>
      obtain ⟨k, v⟩ := p
      by_cases hk : k = id
      · subst hk
        simp [setEntry, getEntry, hij]
      · simp [setEntry, getEntry, hk, ih]

theorem length_setEntry_of_none (m : Ledger) (id : String) (e : Entry)
    (h : getEntry m id = none) : (setEntry m id e).length = m.length + 1 := by
  induction m with
  | nil => simp [setEntry]
  | cons p rest ih =>
      obtain ⟨k, v⟩ := p
      by_cases hk : k = id
      · simp [getEntry, hk] at h
      · simp [getEntry, hk] at h
        simp [setEntry, hk, ih h]

theorem length_setEntry_of_some (m : Ledger) (id : String) (e v : Entry)
    (h : getEntry m id = some v) : (setEntry m id e).length = m.length := by
  induction m with
  | nil => simp [getEntry] at h
  | cons p rest ih =>
      obtain ⟨k, w⟩ := p
      by_cases hk : k = id
      · simp [setEntry, hk]
      · simp [getEntry, hk] at h
        simp [setEntry, hk, ih h]

theorem mem_setEntry (m : Ledger) (id : String) (e : Entry) (p : String × Entry)
    (hp : p ∈ setEntry m id e) : p = (id, e) ∨ p ∈ m := by
  induction m with
  | nil => simpa [setEntry] using hp
  | cons q rest ih =>
      obtain ⟨k, v⟩ := q
      by_cases hk : k = id
      · simp [setEntry, hk] at hp
        rcases hp with h | h
        · exact Or.inl (by simp [h])
        · exact Or.inr (by simp [h])
      · simp [setEntry, hk] at hp
        rcases hp with h | h
        · exact Or.inr (by simp [h])
        · rcases ih h with h1 | h1
          · exact Or.inl h1
          · exact Or.inr (by simp [h1])

/-! ## Status-invariant lemmas -/

theorem valid_setEntry {m : Ledger} {id : String} {e : Entry}
    (hm : ValidLedger m) (he : ValidStatus e.Status) : ValidLedger (setEntry m id e) := by
  intro p hp
  rcases mem_setEntry m id e p hp with h | h
  · subst h; exact he
  · exact hm p h

theorem updateStatus_data (c : Collector) (s : Snapshot) (st : Status) (msg : String) :
    (c.updateStatus s st msg).data =
      setEntry c.data s.ID { Snapshot := s, Status := st, Message := msg } := rfl

theorem valid_updateStatus {c : Collector} {s : Snapshot} {st : Status} {msg : String}
    (hc : ValidLedger c.data) (hst : ValidStatus st) :
    ValidLedger (c.updateStatus s st msg).data :=
  valid_setEntry hc hst

theorem valid_runProcessor (proc : Snapshot → Except String Unit) (c : Collector)
    (s : Snapshot) (hc : ValidLedger c.data) :
    ValidLedger (Collector.runProcessor proc c s).1.data := by
  unfold Collector.runProcessor
  cases h : proc s with
  | error e =>
      simp only [h]
      exact valid_updateStatus (valid_updateStatus hc (Or.inl rfl)) (Or.inr (Or.inr rfl))
  | ok u =>
      simp only [h]
      exact valid_updateStatus (valid_updateStatus hc (Or.inl rfl)) (Or.inr (Or.inl rfl))

theorem valid_Collect (prepare : SnapshotTarget → Snapshot)
    (capture : Snapshot → Option String) (proc : Snapshot → Except String Unit)
    (c : Collector) (target : SnapshotTarget) (hc : ValidLedger c.data) :
    ValidLedger (Collector.Collect prepare capture proc c target).1.data := by
  unfold Collector.Collect
  split
  · exact hc
  · cases hcap : capture (prepare target) with
    | some e =>
        simp only [hcap]
        exact valid_updateStatus (valid_updateStatus hc (Or.inl rfl)) (Or.inr (Or.inr rfl))
    | none =>
        simp only [hcap]
        split
        · exact valid_updateStatus
            (valid_runProcessor _ _ _ (valid_updateStatus hc (Or.inl rfl)))
            (Or.inr (Or.inr rfl))
        · exact valid_runProcessor _ _ _ (valid_updateStatus hc (Or.inl rfl))

theorem Get_fst_data (proc : Snapshot → Except String Unit) (c : Collector) (id : String) :
    ((Collector.Get proc c id).1).data = c.data := by
  unfold Collector.Get
  split <;> rfl

theorem valid_applyOp (c : Collector) (op : Op) (hc : ValidLedger c.data) :
    ValidLedger (applyOp c op).data := by
  cases op with
  | collect prepare capture proc target => exact valid_Collect _ _ _ _ _ hc
  | runProc proc s => exact valid_runProcessor _ _ _ hc
  | get proc id =>
      show ValidLedger ((Collector.Get proc c id).1).data
      rw [Get_fst_data]
      exact hc
  | listOp => exact hc

theorem valid_runOps (ops : List Op) (c : Collector) (hc : ValidLedger c.data) :
    ValidLedger (runOps c ops).data := by
  induction ops generalizing c with
  | nil => exact hc
  | cons op rest ih => exact ih (applyOp c op) (valid_applyOp c op hc)

/-! ## Claim theorems -/

/-- Claim C1, counterexample: in `updateStatus` the single `publisher.Publish()`
call (event index 2 of the trace) runs while the ledger's exclusive lock is
still held — the `defer mu.Unlock()` only fires afterwards — refuting the
claim that the publish is emitted while holding no lock. -/
theorem updateStatus_publish_lock_free_cex :
    updateStatusTrace[2]? = some LockEv.publish ∧
    ledgerLockHeldAt updateStatusTrace 2 := by decide

/-- Claim C1 (amended): every `updateStatus` call emits exactly one publish
event, and it is emitted while the ledger's exclusive (writer) lock is still
held, since `Publish()` precedes the deferred `Unlock()`. -/
theorem updateStatus_publishes_once_under_writer_lock :
    updateStatusTrace.count LockEv.publish = 1 ∧
    updateStatusTrace[2]? = some LockEv.publish ∧
    writerLockHeldAt updateStatusTrace 2 := by decide

/-- Claim C2, counterexample: `Get` on a present ID calls
`processor.Process` (event index 2 of its trace) while the ledger's shared
lock is still held (`defer mu.RUnlock()` fires only after `Process`
returns), refuting the claim that no operation holds the ledger lock across
a processing call. -/
theorem Get_processes_under_lock_cex :
    getTraceHit[2]? = some LockEv.processCall ∧
    ledgerLockHeldAt getTraceHit 2 := by decide

/-- Claim C2 (amended): `updateStatus` and `List` (and `Get` on a missing ID)
perform no processing or capture call at all, hence never hold the ledger
lock across one; but `Get` on a present ID does invoke `processor.Process`
while the shared (reader) lock is held. -/
theorem ledger_lock_vs_processing_calls :
    updateStatusTrace.count LockEv.processCall = 0 ∧
    updateStatusTrace.count LockEv.captureCall = 0 ∧
    listTrace.count LockEv.processCall = 0 ∧
    listTrace.count LockEv.captureCall = 0 ∧
    getTraceMiss.count LockEv.processCall = 0 ∧
    getTraceMiss.count LockEv.captureCall = 0 ∧
    getTraceHit[2]? = some LockEv.processCall ∧
    readerLockHeldAt getTraceHit 2 := by decide

/-- Claim C4 (confirmed): for every target with an empty URL or zero
duration, `Collect` returns the invalid-argument error and the collector
state is returned entirely unchanged — no storage allocation, no ledger
entry, no publish, before any side effect. -/
theorem Collect_invalid_argument (prepare : SnapshotTarget → Snapshot)
    (capture : Snapshot → Option String) (proc : Snapshot → Except String Unit)
    (c : Collector) (target : SnapshotTarget)
    (h : target.URL = "" ∨ target.Duration = 0) :
    Collector.Collect prepare capture proc c target =
      (c, some "URL and Duration cannot be nil") := by
  unfold Collector.Collect
  rw [if_pos h]

/-- Claim C4, witness at a concrete empty-URL target. -/
theorem Collect_invalid_argument_witness :
    (({ URL := "", Duration := 5 } : SnapshotTarget).URL = "" ∨
      ({ URL := "", Duration := 5 } : SnapshotTarget).Duration = 0) ∧
    Collector.Collect samplePrepare sampleCaptureOk sampleProcOk initCollector
        { URL := "", Duration := 5 } =
      (initCollector, some "URL and Duration cannot be nil") :=
  ⟨Or.inl rfl,
   Collect_invalid_argument samplePrepare sampleCaptureOk sampleProcOk initCollector
     { URL := "", Duration := 5 } (Or.inl rfl)⟩

/-- Claim C7 (confirmed): for every ID absent from the ledger, `Get` returns
the NotFound error (`"no such entry: <nil>"`) and the collector state is
returned entirely unchanged — in particular no `processor.Process` call is
logged and the ledger is untouched. -/
theorem Get_absent_notfound (proc : Snapshot → Except String Unit) (c : Collector)
    (id : String) (h : getEntry c.data id = none) :
    Collector.Get proc c id = (c, Except.error "no such entry: <nil>") := by
  unfold Collector.Get
  rw [h]

/-- Claim C7, witness at a concrete absent ID. -/
theorem Get_absent_notfound_witness :
    getEntry initCollector.data "missing" = none ∧
    Collector.Get sampleProcOk initCollector "missing" =
      (initCollector, Except.error "no such entry: <nil>") :=
  ⟨rfl, Get_absent_notfound sampleProcOk initCollector "missing" rfl⟩

/-- Claim C10, counterexample: the failure message of `Get` on an absent ID
is the constant `"no such entry: <nil>"`, so for the absent ID `"entry"`
the message does contain the requested ID as a substring — refuting the
universally quantified "never contains the ID the caller asked for". -/
theorem Get_absent_message_contains_id_cex :
    getEntry initCollector.data "entry" = none ∧
    (Collector.Get sampleProcOk initCollector "entry").2 =
      Except.error "no such entry: <nil>" ∧
    strContainsSub "no such entry: <nil>" "entry" = true := by
  refine ⟨rfl, rfl, by decide⟩

/-- Claim C10 (amended): for every ID absent from the ledger, `Get` formats
the looked-up nil entry value rather than the requested ID, so its message
is always the constant `"no such entry: <nil>"` (independent of the ID); the
requested ID therefore never appears in it except when the ID happens to be
a substring of that constant. -/
theorem Get_absent_message_formats_nil_entry (proc : Snapshot → Except String Unit)
    (c : Collector) (id : String) (h : getEntry c.data id = none) :
    (Collector.Get proc c id).2 = Except.error "no such entry: <nil>" := by
  unfold Collector.Get
  rw [h]

/-- Claim C10, witness at a concrete absent ID. -/
theorem Get_absent_message_formats_nil_entry_witness :
    getEntry initCollector.data "zzz" = none ∧
    (Collector.Get sampleProcOk initCollector "zzz").2 =
      Except.error "no such entry: <nil>" :=
  ⟨rfl, Get_absent_message_formats_nil_entry sampleProcOk initCollector "zzz" rfl⟩

/-- Claim C6 (confirmed): for every `Collect` call where capture fails with
error text `e`, the ledger entry for the allocated snapshot ends with
Status=Fail and Message equal to the capture error string, no
`processor.Process` call is made, and `Collect` returns the wrapped
capture-stage error `"failed to collect: " ++ e`. -/
theorem Collect_capture_fails (prepare : SnapshotTarget → Snapshot)
    (capture : Snapshot → Option String) (proc : Snapshot → Except String Unit)
    (c : Collector) (target : SnapshotTarget) (e : String)
    (hURL : target.URL ≠ "") (hDur : target.Duration ≠ 0)
    (hcap : capture (prepare target) = some e) :
    getEntry (Collector.Collect prepare capture proc c target).1.data
        (prepare target).ID =
      some { Snapshot := prepare target, Status := StatusFail, Message := e } ∧
    (Collector.Collect prepare capture proc c target).1.processed = c.processed ∧
    (Collector.Collect prepare capture proc c target).2 =
      some ("failed to collect: " ++ e) := by
  have hv : ¬(target.URL = "" ∨ target.Duration = 0) := by simp [hURL, hDur]
  unfold Collector.Collect
  rw [if_neg hv]
  simp only [hcap, Collector.updateStatus]
  simp [getEntry_setEntry_self]

/-- Claim C6, witness at a concrete failing capture. -/
theorem Collect_capture_fails_witness :
    sampleTarget.URL ≠ "" ∧ sampleTarget.Duration ≠ 0 ∧
    sampleCaptureFail (samplePrepare sampleTarget) = some "dial refused" ∧
    (getEntry (Collector.Collect samplePrepare sampleCaptureFail sampleProcOk
          initCollector sampleTarget).1.data (samplePrepare sampleTarget).ID =
        some { Snapshot := samplePrepare sampleTarget, Status := StatusFail,
               Message := "dial refused" } ∧
      (Collector.Collect samplePrepare sampleCaptureFail sampleProcOk initCollector
          sampleTarget).1.processed = initCollector.processed ∧
      (Collector.Collect samplePrepare sampleCaptureFail sampleProcOk initCollector
          sampleTarget).2 = some ("failed to collect: " ++ "dial refused")) :=
  ⟨by decide, by decide, rfl,
   Collect_capture_fails samplePrepare sampleCaptureFail sampleProcOk initCollector
     sampleTarget "dial refused" (by decide) (by decide) rfl⟩

/-- Claim C3, counterexample: with capture succeeding and the processor
failing with `"boom"`, the final ledger entry's Message is the wrapped
`"processor aborted: boom"` (because `Collect` re-records `runProcessor`'s
already-wrapped error), not the raw processing error string `"boom"`. -/
theorem Collect_processing_fail_message_cex :
    (getEntry (Collector.Collect samplePrepare sampleCaptureOk sampleProcFail
          initCollector sampleTarget).1.data "s1").map Entry.Message =
      some "processor aborted: boom" ∧
    ¬ (getEntry (Collector.Collect samplePrepare sampleCaptureOk sampleProcFail
          initCollector sampleTarget).1.data "s1").map Entry.Message =
      some "boom" := by decide

/-- Claim C3 (amended): for every `Collect` call where capture succeeds but
processing fails with error text `e`, the final ledger entry for the
snapshot has Status=Fail with Message equal to the wrapped error
`"processor aborted: " ++ e`, the snapshot's Prune is scheduled, and
`Collect` returns the processing-stage error
`"failed to process: processor aborted: " ++ e`. -/
theorem Collect_capture_ok_processing_fails (prepare : SnapshotTarget → Snapshot)
    (capture : Snapshot → Option String) (proc : Snapshot → Except String Unit)
    (c : Collector) (target : SnapshotTarget) (e : String)
    (hURL : target.URL ≠ "") (hDur : target.Duration ≠ 0)
    (hcap : capture (prepare target) = none)
    (hproc : proc (prepare target) = Except.error e) :
    getEntry (Collector.Collect prepare capture proc c target).1.data
        (prepare target).ID =
      some { Snapshot := prepare target, Status := StatusFail,
             Message := "processor aborted: " ++ e } ∧
    (prepare target).ID ∈ (Collector.Collect prepare capture proc c target).1.pruned ∧
    (Collector.Collect prepare capture proc c target).2 =
      some ("failed to process: " ++ ("processor aborted: " ++ e)) := by
  have hv : ¬(target.URL = "" ∨ target.Duration = 0) := by simp [hURL, hDur]
  unfold Collector.Collect
  rw [if_neg hv]
  simp only [hcap, Collector.runProcessor, hproc, Collector.updateStatus]
  simp [getEntry_setEntry_self]

/-- Claim C3, witness at a concrete failing processor. -/
theorem Collect_capture_ok_processing_fails_witness :
    sampleTarget.URL ≠ "" ∧ sampleTarget.Duration ≠ 0 ∧
    sampleCaptureOk (samplePrepare sampleTarget) = none ∧
    sampleProcFail (samplePrepare sampleTarget) = Except.error "boom" ∧
    (getEntry (Collector.Collect samplePrepare sampleCaptureOk sampleProcFail
          initCollector sampleTarget).1.data (samplePrepare sampleTarget).ID =
        some { Snapshot := samplePrepare sampleTarget, Status := StatusFail,
               Message := "processor aborted: " ++ "boom" } ∧
      (samplePrepare sampleTarget).ID ∈
        (Collector.Collect samplePrepare sampleCaptureOk sampleProcFail initCollector
          sampleTarget).1.pruned ∧
      (Collector.Collect samplePrepare sampleCaptureOk sampleProcFail initCollector
          sampleTarget).2 =
        some ("failed to process: " ++ ("processor aborted: " ++ "boom"))) :=
  ⟨by decide, by decide, rfl, rfl,
   Collect_capture_ok_processing_fails samplePrepare sampleCaptureOk sampleProcFail
     initCollector sampleTarget "boom" (by decide) (by decide) rfl rfl⟩

/-- Claim C5 (confirmed): for every `Collect` call with a valid target where
capture and processing both succeed, `Collect` returns no error and the
ledger afterwards contains exactly one new entry — the allocated snapshot's
ID maps to Status=Ok, Message="Ready", every other ID is unchanged, and the
ledger grew by exactly one entry (the allocated ID being fresh). -/
theorem Collect_success (prepare : SnapshotTarget → Snapshot)
    (capture : Snapshot → Option String) (proc : Snapshot → Except String Unit)
    (c : Collector) (target : SnapshotTarget)
    (hURL : target.URL ≠ "") (hDur : target.Duration ≠ 0)
    (hcap : capture (prepare target) = none)
    (hproc : proc (prepare target) = Except.ok ())
    (hfresh : getEntry c.data (prepare target).ID = none) :
    (Collector.Collect prepare capture proc c target).2 = none ∧
    getEntry (Collector.Collect prepare capture proc c target).1.data
        (prepare target).ID =
      some { Snapshot := prepare target, Status := StatusOk, Message := "Ready" } ∧
    (∀ j, j ≠ (prepare target).ID →
      getEntry (Collector.Collect prepare capture proc c target).1.data j =
        getEntry c.data j) ∧
    (Collector.Collect prepare capture proc c target).1.data.length =
      c.data.length + 1 := by
  have hv : ¬(target.URL = "" ∨ target.Duration = 0) := by simp [hURL, hDur]
  unfold Collector.Collect
  rw [if_neg hv]
  simp only [hcap, Collector.runProcessor, hproc, Collector.updateStatus]
  refine ⟨trivial, getEntry_setEntry_self _ _ _, ?_, ?_⟩
  · intro j hj
    rw [getEntry_setEntry_ne _ _ _ _ hj, getEntry_setEntry_ne _ _ _ _ hj,
      getEntry_setEntry_ne _ _ _ _ hj]
  · rw [length_setEntry_of_some _ _ _ _ (getEntry_setEntry_self _ _ _),
      length_setEntry_of_some _ _ _ _ (getEntry_setEntry_self _ _ _),
      length_setEntry_of_none _ _ _ hfresh]

/-- Claim C5, witness at a concrete successful collect on an empty ledger. -/
theorem Collect_success_witness :
    sampleTarget.URL ≠ "" ∧ sampleTarget.Duration ≠ 0 ∧
    sampleCaptureOk (samplePrepare sampleTarget) = none ∧
    sampleProcOk (samplePrepare sampleTarget) = Except.ok () ∧
    getEntry initCollector.data (samplePrepare sampleTarget).ID = none ∧
    ((Collector.Collect samplePrepare sampleCaptureOk sampleProcOk initCollector
        sampleTarget).2 = none ∧
      getEntry (Collector.Collect samplePrepare sampleCaptureOk sampleProcOk
          initCollector sampleTarget).1.data (samplePrepare sampleTarget).ID =
        some { Snapshot := samplePrepare sampleTarget, Status := StatusOk,
               Message := "Ready" } ∧
      (∀ j, j ≠ (samplePrepare sampleTarget).ID →
        getEntry (Collector.Collect samplePrepare sampleCaptureOk sampleProcOk
            initCollector sampleTarget).1.data j = getEntry initCollector.data j) ∧
      (Collector.Collect samplePrepare sampleCaptureOk sampleProcOk initCollector
          sampleTarget).1.data.length = initCollector.data.length + 1) :=
  ⟨by decide, by decide, rfl, rfl, rfl,
   Collect_success samplePrepare sampleCaptureOk sampleProcOk initCollector
     sampleTarget (by decide) (by decide) rfl rfl rfl⟩

/-- Claim C8 (confirmed): (a) along every sequence of operations of the code
(each of which drives `updateStatus` only with Pending/Ok/Fail), every entry
observable via `List` has a status in {Pending, Ok, Fail}; (b) each
`updateStatus` call replaces the entry for the snapshot's ID wholesale by
the freshly allocated value; (c) after any nonempty sequence of
`updateStatus` calls on the same snapshot, the observed entry is exactly
the one written by the most recent call. -/
theorem updateStatus_status_machine (ops : List Op) (calls : List (Status × String))
    (s : Snapshot) (c : Collector) :
    (∀ en ∈ Collector.List (runOps initCollector ops), ValidStatus en.Status) ∧
    (∀ st msg, getEntry ((Collector.updateStatus c s st msg).data) s.ID =
      some { Snapshot := s, Status := st, Message := msg }) ∧
    (∀ q, calls.getLast? = some q →
      getEntry ((calls.foldl (fun a p => Collector.updateStatus a s p.1 p.2) c).data)
          s.ID =
        some { Snapshot := s, Status := q.1, Message := q.2 }) := by
  refine ⟨?_, ?_, ?_⟩
  · intro en hen
    have hv : ValidLedger (runOps initCollector ops).data := by
      refine valid_runOps ops initCollector ?_
      intro p hp
      simp [initCollector] at hp
    obtain ⟨p, hp, hpe⟩ : ∃ p ∈ (runOps initCollector ops).data, p.2 = en := by
      simpa [Collector.List] using hen
    exact hpe ▸ hv p hp
  · intro st msg
    exact getEntry_setEntry_self _ _ _
  · intro q
    induction calls generalizing c with
    | nil => intro hq; simp at hq
    | cons p rest ih =>
        intro hq
        cases rest with
        | nil =>
            obtain rfl : p = q := by simpa using hq
            exact getEntry_setEntry_self _ _ _
        | cons p2 rest2 =>
            have hq2 : (p2 :: rest2).getLast? = some q := by
              simpa [List.getLast?_cons_cons] using hq
            exact ih (Collector.updateStatus c s p.1 p.2) hq2

/-- Claim C8, witness: one concrete operation sequence and a concrete pair of
`updateStatus` calls ending in Ok/"Ready". -/
theorem updateStatus_status_machine_witness :
    (([(StatusPending, "Processing"), (StatusOk, "Ready")] :
        List (Status × String)).getLast? = some (StatusOk, "Ready")) ∧
    getEntry ((([(StatusPending, "Processing"), (StatusOk, "Ready")] :
          List (Status × String)).foldl
        (fun a p => Collector.updateStatus a { ID := "s1" } p.1 p.2)
        initCollector).data) (Snapshot.mk "s1").ID =
      some { Snapshot := { ID := "s1" }, Status := (StatusOk, "Ready").1,
             Message := (StatusOk, "Ready").2 } :=
  ⟨by decide,
   (updateStatus_status_machine [Op.listOp]
       [(StatusPending, "Processing"), (StatusOk, "Ready")]
       { ID := "s1" } initCollector).2.2 (StatusOk, "Ready") (by decide)⟩

/-- Claim C9 (confirmed): `New` returns an initialization error exactly when
storage cannot be opened or the existing snapshots cannot be listed;
otherwise, with the listed snapshots, it launches one background
`runProcessor` task per snapshot and returns a collector on which none of
those tasks has yet acted (empty ledger, no processing effects). -/
theorem New_initialization (openRes : Except String Unit)
    (listRes : Except String (List Snapshot)) :
    ((∃ e, New openRes listRes = Except.error e) ↔
      ((∃ e, openRes = Except.error e) ∨ (∃ e, listRes = Except.error e))) ∧
    (∀ u snaps, openRes = Except.ok u → listRes = Except.ok snaps →
      ∃ res, New openRes listRes = Except.ok res ∧ res.spawned = snaps ∧
        res.spawned.length = snaps.length ∧ res.collector = initCollector) := by
  cases openRes with
  | error a =>
      refine ⟨by simp [New], ?_⟩
      intro u snaps hu
      exact absurd hu (by simp)
  | ok u0 =>
      cases listRes with
      | error b =>
          refine ⟨by simp [New], ?_⟩
          intro u snaps _ hl
          exact absurd hl (by simp)
      | ok snaps0 =>
          refine ⟨by simp [New], ?_⟩
          intro u snaps _ hl
          obtain rfl : snaps0 = snaps := by simpa using hl
          exact ⟨_, rfl, rfl, rfl, rfl⟩

/-- Claim C9, witness: successful construction over two persisted snapshots
spawns two background tasks and returns the untouched initial collector. -/
theorem New_initialization_witness :
    ((Except.ok () : Except String Unit) = Except.ok ()) ∧
    ((Except.ok [Snapshot.mk "a", Snapshot.mk "b"] :
        Except String (List Snapshot)) =
      Except.ok [Snapshot.mk "a", Snapshot.mk "b"]) ∧
    (∃ res, New (Except.ok ()) (Except.ok [Snapshot.mk "a", Snapshot.mk "b"]) =
        Except.ok res ∧ res.spawned = [Snapshot.mk "a", Snapshot.mk "b"] ∧
        res.spawned.length = [Snapshot.mk "a", Snapshot.mk "b"].length ∧
        res.collector = initCollector) :=
  ⟨rfl, rfl,
   (New_initialization (Except.ok ()) (Except.ok [Snapshot.mk "a", Snapshot.mk "b"])).2
     () [Snapshot.mk "a", Snapshot.mk "b"] rfl rfl⟩
